import Mathlib

/-!
Verification development for the harmony ImageEditorModule of
react-native-image-editor.

The repository carries two variants of the module:
- a legacy variant (ImageEditorModule.ts) that keeps the request options in a
  module-scope mutable object and re-measures the scaled pixel map into a
  module-scope variable, and
- a request-scoped variant (the unnamed source file) where the options object
  and the re-measured size are local to each call.

Numbers are modelled as rationals; Math.floor and Math.ceil become Int.floor
and Int.ceil cast back to the rationals.  JavaScript truthiness on a number is
modelled as the number being nonzero, and an absent optional value as none.
The platform pixel-map operations are modelled by their documented effect on
the image size: crop succeeds and sets the size to the region size exactly
when the region fits, and otherwise the rejection is caught by the module and
the size is left unchanged; scale multiplies the size componentwise.
-/

namespace ImageEditor

/-- The size interface of the module: width and height in pixels. -/
structure Size where
  width : ℚ
  height : ℚ
deriving DecidableEq

/-- The offset interface of the module: top-left origin coordinates. -/
structure Offset where
  x : ℚ
  y : ℚ
deriving DecidableEq

/-- image.Region as built by imageEditor: an offset plus a size. -/
structure Region where
  x : ℚ
  y : ℚ
  size : Size
deriving DecidableEq

/-- ImageCropData: the request record received by cropImage.  Optional fields
of the TypeScript interface become Option; includeBase64 absent is modelled
as false, matching its use under JavaScript truthiness. -/
structure ImageCropData where
  offset : Offset
  size : Size
  displaySize : Option Size
  resizeMode : Option String
  quality : Option ℚ
  format : Option String
  includeBase64 : Bool
deriving DecidableEq

/-- EditorResult: the record assembled at the end of imageEditor. -/
structure EditorResult where
  uri : String
  path : String
  name : String
  width : ℚ
  height : ℚ
  size : ℕ
  type : String
  base64 : Option String
deriving DecidableEq

/-- Math.ceil on a rational, returned as a rational dimension. -/
def jsCeil (q : ℚ) : ℚ := ((⌈q⌉ : ℤ) : ℚ)

/-- Math.floor on a rational, returned as a rational. -/
def jsFloor (q : ℚ) : ℚ := ((⌊q⌋ : ℤ) : ℚ)

/-- The quality mapping at the head of cropImage:
let quality = 90; if (options.quality) quality = Math.floor(options.quality * 100).
A supplied quality of 0 is falsy, so the default 90 survives. -/
def mappedQualityPercent (quality : Option ℚ) : ℚ :=
  match quality with
  | some q => if q = 0 then 90 else jsFloor (q * 100)
  | none => 90

/-- The percentage handed to the encoder in packOpts:
quality: newOptions.quality || 90.  A stored percentage of 0 is falsy, so it
is replaced by 90 at encoding time. -/
def encoderQualityPercent (quality : Option ℚ) : ℚ :=
  let m := mappedQualityPercent quality
  if m = 0 then 90 else m

/-- The three validation guards at the head of cropImage, in source order:
empty uri; missing offset or size or a size with a falsy (zero) width or
height; mapped quality percentage outside 0..100.  The result true means the
call proceeds to I/O. -/
def validateCropImage (uri : String) (offset : Option Offset) (sz : Option Size)
    (quality : Option ℚ) : Bool :=
  let qualityPercent := mappedQualityPercent quality
  if uri = "" then false
  else
    match offset, sz with
    | some _, some s =>
      if s.width = 0 ∨ s.height = 0 then false
      else if qualityPercent > 100 ∨ qualityPercent < 0 then false
      else true
    | _, _ => false

/-- The bounds check performed on the decoded image info:
newOptions.offset.x + newOptions.size.width > imageInfo.size.width ||
newOptions.offset.y + newOptions.size.height > imageInfo.size.height. -/
def boundsExceeded (srcSize : Size) (offset : Offset) (sz : Size) : Bool :=
  decide (srcSize.width < offset.x + sz.width) ||
    decide (srcSize.height < offset.y + sz.height)

/-- Effect of editorPM.crop on the pixel-map size: the region size when the
region fits in the current image, otherwise the rejection is caught by the
module (logged) and the size stays unchanged. -/
def cropResultSize (current : Size) (r : Region) : Size :=
  if r.x + r.size.width ≤ current.width ∧ r.y + r.size.height ≤ current.height then
    r.size
  else current

/-- Outcome of the primary-crop stage of imageEditor as observed by the rest
of the pipeline: whether any error outcome is surfaced, the region handed to
editorPM.crop, and the resulting pixel-map size. -/
structure StageOutcome where
  surfacedError : Bool
  regionUsed : Region
  pmSize : Size
deriving DecidableEq

/-- The primary-crop stage of imageEditor.  The bounds check runs inside a
then-callback whose early return only leaves the callback after logging, so
no error outcome reaches the caller and the crop always receives the request
region unchanged. -/
def primaryCropStage (srcSize : Size) (offset : Offset) (sz : Size) : StageOutcome :=
  let region : Region := { x := offset.x, y := offset.y, size := { width := sz.width, height := sz.height } }
  { surfacedError := false
    regionUsed := region
    pmSize := cropResultSize srcSize region }

/-- TargetRect of the request-scoped variant.  targetRegion starts as
zero offsets with a copy of cropSize; the cover branch fills the offset on
the overfilled axis and sets the size to displaySize; contain and center set
the size inside their own branches; an unrecognized mode leaves the initial
region untouched. -/
def TargetRect (resizeMode : Option String) (cropSize displaySize resizeScaleSize : Size) :
    Region :=
  let aspect := cropSize.width / cropSize.height
  let targetAspect := displaySize.width / displaySize.height
  if resizeMode = some "cover" then
    if targetAspect ≤ aspect then
      { x := |(resizeScaleSize.width - displaySize.width) / 2|, y := 0, size := displaySize }
    else
      { x := 0, y := |(resizeScaleSize.height - displaySize.height) / 2|, size := displaySize }
  else if resizeMode = some "contain" then
    if targetAspect ≤ aspect then
      { x := 0, y := 0
        size := { width := displaySize.width, height := jsCeil (displaySize.width / aspect) } }
    else
      { x := 0, y := 0
        size := { width := jsCeil (displaySize.height * aspect), height := displaySize.height } }
  else if resizeMode = some "center" then
    let t1 : Size :=
      if displaySize.height < cropSize.height then
        { width := displaySize.width, height := jsCeil (displaySize.width / aspect) }
      else { width := cropSize.width, height := cropSize.height }
    let t2 : Size :=
      if displaySize.width < cropSize.width then
        { width := jsCeil (displaySize.height * aspect), height := displaySize.height }
      else t1
    { x := 0, y := 0, size := t2 }
  else
    { x := 0, y := 0, size := { width := cropSize.width, height := cropSize.height } }

/-- TargetRect of the legacy variant.  Identical branch logic, but after the
branches the function unconditionally executes targetRegion.size = targetSize,
where targetSize is the working copy of cropSize that the cover branch never
mutates: the cover branch's assignment of displaySize into the region size is
therefore dead, and a cover region leaves with a copy of cropSize as its size.
The contain and center branches mutate targetSize itself, so for them the
final assignment is a no-op. -/
def TargetRectLegacy (resizeMode : Option String) (cropSize displaySize resizeScaleSize : Size) :
    Region :=
  let aspect := cropSize.width / cropSize.height
  let targetAspect := displaySize.width / displaySize.height
  if resizeMode = some "cover" then
    if targetAspect ≤ aspect then
      { x := |(resizeScaleSize.width - displaySize.width) / 2|, y := 0
        size := { width := cropSize.width, height := cropSize.height } }
    else
      { x := 0, y := |(resizeScaleSize.height - displaySize.height) / 2|
        size := { width := cropSize.width, height := cropSize.height } }
  else if resizeMode = some "contain" then
    if targetAspect ≤ aspect then
      { x := 0, y := 0
        size := { width := displaySize.width, height := jsCeil (displaySize.width / aspect) } }
    else
      { x := 0, y := 0
        size := { width := jsCeil (displaySize.height * aspect), height := displaySize.height } }
  else if resizeMode = some "center" then
    let t1 : Size :=
      if displaySize.height < cropSize.height then
        { width := displaySize.width, height := jsCeil (displaySize.width / aspect) }
      else { width := cropSize.width, height := cropSize.height }
    let t2 : Size :=
      if displaySize.width < cropSize.width then
        { width := jsCeil (displaySize.height * aspect), height := displaySize.height }
      else t1
    { x := 0, y := 0, size := t2 }
  else
    { x := 0, y := 0, size := { width := cropSize.width, height := cropSize.height } }

/-- The aspect tie-break of imageEditor:
if (aspect === targetAspect) newOptions.resizeMode = 'stretch'. -/
def effectiveResizeMode (requested : Option String) (cropSize displaySize : Size) :
    Option String :=
  if cropSize.width / cropSize.height = displaySize.width / displaySize.height then
    some "stretch"
  else requested

/-- Effect of editorPM.scale on the pixel-map size. -/
def scaleSize (s : Size) (sx sy : ℚ) : Size :=
  { width := s.width * sx, height := s.height * sy }

/-- The resize block of imageEditor in the request-scoped variant, reduced to
its effect on the pixel-map size, for a present displaySize with nonzero
dimensions.  stretch scales by (xRatio, yRatio); cover scales uniformly by
max(xRatio, yRatio) when the sizes differ, re-measures, and crops to the
TargetRect region; every other mode (contain, center, or an absent or unknown
mode) scales to the TargetRect size. -/
def resizeBlockOutputSize (requested : Option String) (cropSize displaySize : Size) : Size :=
  let mode := effectiveResizeMode requested cropSize displaySize
  let xRatio := displaySize.width / cropSize.width
  let yRatio := displaySize.height / cropSize.height
  if mode = some "stretch" then
    scaleSize cropSize xRatio yRatio
  else if mode = some "cover" then
    let scaled :=
      if displaySize.width ≠ cropSize.width ∨ displaySize.height ≠ cropSize.height then
        scaleSize cropSize (max xRatio yRatio) (max xRatio yRatio)
      else displaySize
    cropResultSize scaled (TargetRect mode cropSize displaySize scaled)
  else
    let t := (TargetRect mode cropSize displaySize { width := 0, height := 0 }).size
    scaleSize cropSize (t.width / cropSize.width) (t.height / cropSize.height)

/-- The resize block of the legacy variant: the same flow, but the secondary
crop region comes from the legacy TargetRect with its trailing size
override. -/
def resizeBlockOutputSizeLegacy (requested : Option String) (cropSize displaySize : Size) :
    Size :=
  let mode := effectiveResizeMode requested cropSize displaySize
  let xRatio := displaySize.width / cropSize.width
  let yRatio := displaySize.height / cropSize.height
  if mode = some "stretch" then
    scaleSize cropSize xRatio yRatio
  else if mode = some "cover" then
    let scaled :=
      if displaySize.width ≠ cropSize.width ∨ displaySize.height ≠ cropSize.height then
        scaleSize cropSize (max xRatio yRatio) (max xRatio yRatio)
      else displaySize
    cropResultSize scaled (TargetRectLegacy mode cropSize displaySize scaled)
  else
    let t := (TargetRectLegacy mode cropSize displaySize { width := 0, height := 0 }).size
    scaleSize cropSize (t.width / cropSize.width) (t.height / cropSize.height)

/-- The guard around the resize block and its effect on the final pixel-map
size: if (newOptions.displaySize && newOptions.displaySize.width &&
newOptions.displaySize.height), run the resize block, else keep the primary
crop size. -/
def outputSizeOfOptions (o : ImageCropData) : Size :=
  match o.displaySize with
  | some d =>
    if d.width ≠ 0 ∧ d.height ≠ 0 then resizeBlockOutputSize o.resizeMode o.size d
    else o.size
  | none => o.size

/-- Fallback format derivation in cropImage when no format is requested: the
trailing extension of the source reference, or jpeg when it has none. -/
def formatFromUri (uri : String) : String :=
  let uris := uri.splitOn "."
  if 1 < uris.length then uris.getLastD "jpeg" else "jpeg"

/-- The module-scope options object of the legacy variant, as initialized at
module load. -/
def initialNewOptions : ImageCropData :=
  { offset := { x := 0, y := 0 }
    size := { width := 0, height := 0 }
    displaySize := none
    resizeMode := some "cover"
    quality := none
    format := none
    includeBase64 := false }

/-- The field-merging writes cropImage performs into the legacy module-scope
newOptions object: size, offset and quality are always overwritten, while
displaySize, resizeMode and includeBase64 are only overwritten when the
incoming request supplies a truthy value, leaving the previous call's value
in place otherwise. -/
def mergeIntoModuleOptions (st : ImageCropData) (uri : String) (req : ImageCropData) :
    ImageCropData :=
  { st with
    size := req.size
    offset := req.offset
    quality := some (mappedQualityPercent req.quality)
    displaySize := match req.displaySize with | some d => some d | none => st.displaySize
    resizeMode := match req.resizeMode with | some m => some m | none => st.resizeMode
    format := some (match req.format with | some f => f | none => formatFromUri uri)
    includeBase64 := if req.includeBase64 then req.includeBase64 else st.includeBase64 }

/-- A filesystem with one byte-count per path. -/
structure FsState where
  files : String → Option ℕ

/-- fs.writeSync on a freshly created file: the file at the path now holds the
data and the call returns the number of bytes written. -/
def fsWrite (fs : FsState) (path : String) (dataLen : ℕ) : FsState × ℕ :=
  (⟨fun p => if p = path then some dataLen else fs.files p⟩, dataLen)

/-- fs.statSync(path).size. -/
def fsStatSize (fs : FsState) (path : String) : ℕ :=
  (fs.files path).getD 0

/-- Outcome of the persistence stage: the filesystem afterwards and the byte
size stored into the result record. -/
structure PersistOutcome where
  fsAfter : FsState
  reportedSize : ℕ

/-- Persistence in the legacy variant: write the encoded data, remember the
write count, then overwrite it with fs.statSync(path).size re-read after the
write, and report that. -/
def persistStage (fs : FsState) (path : String) (dataLen : ℕ) : PersistOutcome :=
  let w := fsWrite fs path dataLen
  { fsAfter := w.1, reportedSize := fsStatSize w.1 path }

/-- Persistence in the request-scoped variant: write the encoded data and
report the write count returned by fs.writeSync. -/
def persistStageWriteCount (fs : FsState) (path : String) (dataLen : ℕ) : PersistOutcome :=
  let w := fsWrite fs path dataLen
  { fsAfter := w.1, reportedSize := w.2 }

/-- Result assembly at the end of imageEditor: the uri is the path behind a
file scheme, the mime type is the normalized suffix behind image slash, and
the base64 payload is attached exactly when includeBase64 is set. -/
def assembleResult (path fileName : String) (finalSize : Size) (byteSize : ℕ)
    (suffix : String) (includeBase64 : Bool) (base64Data : String) : EditorResult :=
  { uri := "file://" ++ path
    path := path
    name := fileName
    width := finalSize.width
    height := finalSize.height
    size := byteSize
    type := "image/" ++ suffix
    base64 := if includeBase64 then some base64Data else none }

/-- The value cropImage hands back to the caller: return fileUri.uri. -/
def cropImageReturn (r : EditorResult) : String := r.uri

/-- C2: with a decoded source of 100 by 100 and a crop region at offset
(50, 50) of size 60 by 60, the bounds check detects the violation, yet the
primary-crop stage surfaces no error outcome to the caller and hands the
request region to the crop unchanged (no clamping): the condition is only
logged while processing continues, contradicting the claim that it aborts the
pipeline as a BoundsViolation failure. -/
theorem boundsViolationOnlyLogged :
    boundsExceeded ⟨100, 100⟩ ⟨50, 50⟩ ⟨60, 60⟩ = true ∧
    (primaryCropStage ⟨100, 100⟩ ⟨50, 50⟩ ⟨60, 60⟩).surfacedError = false ∧
    (primaryCropStage ⟨100, 100⟩ ⟨50, 50⟩ ⟨60, 60⟩).regionUsed =
      { x := 50, y := 50, size := ⟨60, 60⟩ } := by
  refine ⟨?_, rfl, rfl⟩
  norm_num [boundsExceeded]

/-- C3: a request with a nonempty source reference, an offset, a size of
width minus five (a negative, hence non-positive, width) and no quality
passes all three validation guards and proceeds to I/O, whereas the claim
requires such a request to be rejected; only a zero width is caught, because
the check tests JavaScript truthiness of the width rather than positivity. -/
theorem negativeSizePassesValidation :
    validateCropImage "photo.png" (some ⟨0, 0⟩) (some ⟨-5, 10⟩) none = true ∧
    ((-5 : ℚ) < 0) ∧
    validateCropImage "photo.png" (some ⟨0, 0⟩) (some ⟨0, 10⟩) none = false := by
  refine ⟨?_, by norm_num, ?_⟩ <;> norm_num [validateCropImage, mappedQualityPercent] <;>
    decide

/-- C6: a quality of exactly 0 does not map to encoder percentage 0: the two
truthiness fallbacks (options.quality and newOptions.quality || 90) replace
it with the default 90, refuting the claimed mapping at the concrete input
quality = 0. -/
theorem qualityZeroEncodesAtDefault :
    encoderQualityPercent (some 0) = 90 ∧ (90 : ℚ) ≠ 0 := by
  constructor <;> norm_num [encoderQualityPercent, mappedQualityPercent]

/-- C6 amended: quality 0 is accepted by validation but is treated as unset,
so the encoder percentage is the default 90; quality 1 is accepted and maps
to 100; 1.01 and minus 0.01 are rejected by the quality guard; an
unspecified quality defaults to 90. -/
theorem qualityBoundaryBehavior :
    validateCropImage "a.png" (some ⟨0, 0⟩) (some ⟨10, 10⟩) (some 0) = true ∧
    encoderQualityPercent (some 0) = 90 ∧
    validateCropImage "a.png" (some ⟨0, 0⟩) (some ⟨10, 10⟩) (some 1) = true ∧
    encoderQualityPercent (some 1) = 100 ∧
    validateCropImage "a.png" (some ⟨0, 0⟩) (some ⟨10, 10⟩) (some (101 / 100)) = false ∧
    validateCropImage "a.png" (some ⟨0, 0⟩) (some ⟨10, 10⟩) (some (-(1 / 100))) = false ∧
    encoderQualityPercent none = 90 := by
  refine ⟨?_, ?_, ?_, ?_, ?_, ?_, ?_⟩ <;>
    norm_num [validateCropImage, mappedQualityPercent, encoderQualityPercent, jsFloor] <;>
    decide

/-- C7: cropImage does not hand the assembled EditResult back to the caller:
it returns only the uri field, so two pipeline results that differ in their
final width (10 versus 20) and byte size (5 versus 7) produce identical
caller-visible outcomes, refuting the claim that the caller receives the
width, height, byte size and the other fields. -/
theorem cropImageReturnDropsFields :
    cropImageReturn (assembleResult "p" "n" ⟨10, 10⟩ 5 "jpeg" false "") =
      cropImageReturn (assembleResult "p" "n" ⟨20, 20⟩ 7 "jpeg" false "") ∧
    (assembleResult "p" "n" ⟨10, 10⟩ 5 "jpeg" false "").width ≠
      (assembleResult "p" "n" ⟨20, 20⟩ 7 "jpeg" false "").width := by
  constructor
  · rfl
  · norm_num [assembleResult]

/-- C7 amended: the pipeline internally assembles an EditorResult carrying
the file uri, path, name, width, height, byte size, mime type and, exactly
when includeBase64 is set, the base64 payload, but cropImage returns only the
uri string of that record to the caller. -/
theorem resultAssembledButOnlyUriReturned (path fileName : String) (finalSize : Size)
    (byteSize : ℕ) (suffix : String) (includeBase64 : Bool) (base64Data : String) :
    (assembleResult path fileName finalSize byteSize suffix includeBase64 base64Data).uri =
      "file://" ++ path ∧
    (assembleResult path fileName finalSize byteSize suffix includeBase64 base64Data).path =
      path ∧
    (assembleResult path fileName finalSize byteSize suffix includeBase64 base64Data).name =
      fileName ∧
    (assembleResult path fileName finalSize byteSize suffix includeBase64 base64Data).width =
      finalSize.width ∧
    (assembleResult path fileName finalSize byteSize suffix includeBase64 base64Data).height =
      finalSize.height ∧
    (assembleResult path fileName finalSize byteSize suffix includeBase64 base64Data).size =
      byteSize ∧
    (assembleResult path fileName finalSize byteSize suffix includeBase64 base64Data).type =
      "image/" ++ suffix ∧
    ((assembleResult path fileName finalSize byteSize suffix includeBase64 base64Data).base64 =
      if includeBase64 then some base64Data else none) ∧
    cropImageReturn
        (assembleResult path fileName finalSize byteSize suffix includeBase64 base64Data) =
      "file://" ++ path := by
  exact ⟨rfl, rfl, rfl, rfl, rfl, rfl, rfl, rfl, rfl⟩

/-- C8: in both variants the byte size stored into the result equals the byte
size of the persisted file in the filesystem state left behind by the write:
the legacy variant re-reads it with statSync after the write, and the
request-scoped variant reports the write count, which coincides with the
persisted size on the success path. -/
theorem reportedSizeMatchesPersisted (fs : FsState) (path : String) (dataLen : ℕ) :
    (persistStage fs path dataLen).reportedSize =
      fsStatSize (persistStage fs path dataLen).fsAfter path ∧
    (persistStageWriteCount fs path dataLen).reportedSize =
      fsStatSize (persistStageWriteCount fs path dataLen).fsAfter path := by
  constructor <;> simp [persistStage, persistStageWriteCount, fsWrite, fsStatSize]

/-- C1: at cropSize 100 by 200, displaySize 100 by 100 and re-measured scaled
size 100 by 200 in cover mode, the legacy TargetRect computes the claimed
offset (x 0, y 50) but then unconditionally overwrites the region size with
the working copy of cropSize, so the secondary crop region has size 100 by
200 instead of displaySize, and the legacy resize block leaves the pixel map
at 100 by 200 rather than the claimed displaySize; the request-scoped
TargetRect returns the region the claim describes. -/
theorem coverSecondaryRegionSizeOverridden :
    (TargetRectLegacy (some "cover") ⟨100, 200⟩ ⟨100, 100⟩ ⟨100, 200⟩).size = ⟨100, 200⟩ ∧
    ((⟨100, 200⟩ : Size) ≠ ⟨100, 100⟩) ∧
    resizeBlockOutputSizeLegacy (some "cover") ⟨100, 200⟩ ⟨100, 100⟩ = ⟨100, 200⟩ ∧
    TargetRect (some "cover") ⟨100, 200⟩ ⟨100, 100⟩ ⟨100, 200⟩ =
      { x := 0, y := 50, size := ⟨100, 100⟩ } := by
  refine ⟨?_, ?_, ?_, ?_⟩
  · norm_num [TargetRectLegacy]
  · norm_num [Size.mk.injEq]
  · norm_num [resizeBlockOutputSizeLegacy, effectiveResizeMode, TargetRectLegacy,
      scaleSize, cropResultSize, Size.mk.injEq] <;> decide
  · norm_num [TargetRect, Region.mk.injEq, Size.mk.injEq]

/-- C9: in the request-scoped variant a request with displaySize 50 by 50,
crop size 100 by 200 and no resizeMode matches none of the policy branches
(there is no cover default), so the resize block scales by the ratio of the
untouched TargetRect size to itself, leaving the pixel map at 100 by 200,
whereas an explicit cover request yields 50 by 50: the omitted mode is not
treated as cover, refuting the claimed default. -/
theorem omittedResizeModeIsNotCover :
    resizeBlockOutputSize none ⟨100, 200⟩ ⟨50, 50⟩ = ⟨100, 200⟩ ∧
    resizeBlockOutputSize (some "cover") ⟨100, 200⟩ ⟨50, 50⟩ = ⟨50, 50⟩ ∧
    ((⟨100, 200⟩ : Size) ≠ ⟨50, 50⟩) := by
  refine ⟨?_, ?_, ?_⟩
  · simp [resizeBlockOutputSize, effectiveResizeMode, TargetRect, scaleSize, cropResultSize]
    norm_num
  · simp [resizeBlockOutputSize, effectiveResizeMode, TargetRect, scaleSize, cropResultSize]
    norm_num
  · norm_num [Size.mk.injEq]

/-- C10: the legacy module-scope options object carries request state across
calls: after a first call that supplies displaySize 100 by 100, a second call
that omits displaySize still finds it in the shared object and resizes to
100 by 100, while the same second call against a fresh module state keeps its
own crop size 200 by 400 — so the outcome of a call depends on an earlier
call's request, refuting the claimed request-scoped isolation. -/
theorem moduleStateLeaksAcrossCalls :
    (mergeIntoModuleOptions
        (mergeIntoModuleOptions initialNewOptions "a.png"
          { offset := ⟨0, 0⟩, size := ⟨200, 400⟩, displaySize := some ⟨100, 100⟩,
            resizeMode := none, quality := none, format := none, includeBase64 := false })
        "a.png"
        { offset := ⟨0, 0⟩, size := ⟨200, 400⟩, displaySize := none,
          resizeMode := none, quality := none, format := none,
          includeBase64 := false }).displaySize = some ⟨100, 100⟩ ∧
    (mergeIntoModuleOptions initialNewOptions "a.png"
        { offset := ⟨0, 0⟩, size := ⟨200, 400⟩, displaySize := none,
          resizeMode := none, quality := none, format := none,
          includeBase64 := false }).displaySize = none ∧
    outputSizeOfOptions
        (mergeIntoModuleOptions
          (mergeIntoModuleOptions initialNewOptions "a.png"
            { offset := ⟨0, 0⟩, size := ⟨200, 400⟩, displaySize := some ⟨100, 100⟩,
              resizeMode := none, quality := none, format := none, includeBase64 := false })
          "a.png"
          { offset := ⟨0, 0⟩, size := ⟨200, 400⟩, displaySize := none,
            resizeMode := none, quality := none, format := none,
            includeBase64 := false }) = ⟨100, 100⟩ ∧
    outputSizeOfOptions
        (mergeIntoModuleOptions initialNewOptions "a.png"
          { offset := ⟨0, 0⟩, size := ⟨200, 400⟩, displaySize := none,
            resizeMode := none, quality := none, format := none,
            includeBase64 := false }) = ⟨200, 400⟩ := by
  refine ⟨rfl, rfl, ?_, rfl⟩
  simp [outputSizeOfOptions, mergeIntoModuleOptions, initialNewOptions,
    resizeBlockOutputSize, effectiveResizeMode, TargetRect, scaleSize, cropResultSize]
  norm_num

/-- Scaling a size by the ratios of a target size to itself reproduces the
target size exactly, for nonzero source dimensions. -/
theorem scaleSize_ratios_exact (s t : Size) (hw : s.width ≠ 0) (hh : s.height ≠ 0) :
    scaleSize s (t.width / s.width) (t.height / s.height) = t := by
  cases t with
  | mk tw th =>
    simp only [scaleSize, Size.mk.injEq]
    constructor
    · rw [mul_comm, div_mul_cancel₀ _ hw]
    · rw [mul_comm, div_mul_cancel₀ _ hh]

/-- The ceiling of a rational below a natural number stays below it. -/
theorem jsCeil_le_natCast (q : ℚ) (n : ℕ) (h : q ≤ (n : ℚ)) : jsCeil q ≤ (n : ℚ) := by
  unfold jsCeil
  have hc : ⌈q⌉ ≤ (n : ℤ) := Int.ceil_le.mpr (by exact_mod_cast h)
  exact_mod_cast hc

/-- C4: whenever the crop aspect equals the display aspect (the equality the
source compares with ===, here exact equality of the two quotients), the
tie-break in imageEditor forces the effective mode to stretch regardless of
the requested mode, and the stretch scale by (xRatio, yRatio) makes the
output size exactly displaySize; with cropSize equal to displaySize the
hypothesis holds trivially, so the output then equals displaySize. -/
theorem equalAspectForcesStretch (requested : Option String) (cw ch dw dh : ℚ)
    (hcw : 0 < cw) (hch : 0 < ch) (hdw : 0 < dw) (hdh : 0 < dh)
    (hasp : cw / ch = dw / dh) :
    effectiveResizeMode requested ⟨cw, ch⟩ ⟨dw, dh⟩ = some "stretch" ∧
    resizeBlockOutputSize requested ⟨cw, ch⟩ ⟨dw, dh⟩ = ⟨dw, dh⟩ := by
  have hmode : effectiveResizeMode requested ⟨cw, ch⟩ ⟨dw, dh⟩ = some "stretch" := by
    simp [effectiveResizeMode, hasp]
  refine ⟨hmode, ?_⟩
  simp only [resizeBlockOutputSize, hmode, reduceIte]
  exact scaleSize_ratios_exact ⟨cw, ch⟩ ⟨dw, dh⟩ hcw.ne' hch.ne'

/-- C4 witness: at cropSize 50 by 50 equal to displaySize 50 by 50 and a
requested mode of cover, the aspects coincide, the effective mode is stretch
and the output is exactly the display size. -/
theorem equalAspectForcesStretchWitness :
    ((0 : ℚ) < 50 ∧ (50 : ℚ) / 50 = 50 / 50) ∧
    effectiveResizeMode (some "cover") ⟨50, 50⟩ ⟨50, 50⟩ = some "stretch" ∧
    resizeBlockOutputSize (some "cover") ⟨50, 50⟩ ⟨50, 50⟩ = ⟨50, 50⟩ := by
  refine ⟨⟨by norm_num, by norm_num⟩, ?_, ?_⟩
  · exact (equalAspectForcesStretch (some "cover") 50 50 50 50 (by norm_num) (by norm_num)
      (by norm_num) (by norm_num) (by norm_num)).1
  · exact (equalAspectForcesStretch (some "cover") 50 50 50 50 (by norm_num) (by norm_num)
      (by norm_num) (by norm_num) (by norm_num)).2

/-- C5: for contain with unequal aspects (so the tie-break does not fire) and
a positive integral display size, the resize block output equals the
TargetRect size; that size sets the driving dimension to the display
dimension and the other to the ceiling of the exact aspect-preserving value,
and neither dimension exceeds the corresponding display dimension. -/
theorem containPreservesAspectWithinCeil (cw ch : ℚ) (dw dh : ℕ)
    (hcw : 0 < cw) (hch : 0 < ch) (hdw : 0 < dw) (hdh : 0 < dh)
    (hne : cw / ch ≠ (dw : ℚ) / (dh : ℚ)) :
    resizeBlockOutputSize (some "contain") ⟨cw, ch⟩ ⟨(dw : ℚ), (dh : ℚ)⟩ =
      (TargetRect (some "contain") ⟨cw, ch⟩ ⟨(dw : ℚ), (dh : ℚ)⟩ ⟨0, 0⟩).size ∧
    (if (dw : ℚ) / (dh : ℚ) ≤ cw / ch then
        (TargetRect (some "contain") ⟨cw, ch⟩ ⟨(dw : ℚ), (dh : ℚ)⟩ ⟨0, 0⟩).size =
          ⟨(dw : ℚ), jsCeil ((dw : ℚ) / (cw / ch))⟩
      else
        (TargetRect (some "contain") ⟨cw, ch⟩ ⟨(dw : ℚ), (dh : ℚ)⟩ ⟨0, 0⟩).size =
          ⟨jsCeil ((dh : ℚ) * (cw / ch)), (dh : ℚ)⟩) ∧
    (TargetRect (some "contain") ⟨cw, ch⟩ ⟨(dw : ℚ), (dh : ℚ)⟩ ⟨0, 0⟩).size.width ≤ (dw : ℚ) ∧
    (TargetRect (some "contain") ⟨cw, ch⟩ ⟨(dw : ℚ), (dh : ℚ)⟩ ⟨0, 0⟩).size.height ≤
      (dh : ℚ) := by
  have ha : 0 < cw / ch := div_pos hcw hch
  have hdw' : (0 : ℚ) < (dw : ℚ) := by exact_mod_cast hdw
  have hdh' : (0 : ℚ) < (dh : ℚ) := by exact_mod_cast hdh
  have hmode : effectiveResizeMode (some "contain") ⟨cw, ch⟩ ⟨(dw : ℚ), (dh : ℚ)⟩ =
      some "contain" := by
    simp [effectiveResizeMode, hne]
  refine ⟨?_, ?_⟩
  · simp only [resizeBlockOutputSize, hmode]
    norm_num
    exact scaleSize_ratios_exact ⟨cw, ch⟩ _ hcw.ne' hch.ne'
  · by_cases h1 : (dw : ℚ) / (dh : ℚ) ≤ cw / ch
    · have hwle : (dw : ℚ) / (cw / ch) ≤ (dh : ℚ) := by
        rw [div_le_iff₀ ha, mul_comm]
        exact (div_le_iff₀ hdh').mp h1
      refine ⟨by simp [TargetRect, h1], ?_, ?_⟩
      · simp [TargetRect, h1]
      · simp only [TargetRect, h1, if_true, reduceIte]
        exact jsCeil_le_natCast _ dh hwle
    · have h1' : cw / ch < (dw : ℚ) / (dh : ℚ) := lt_of_not_ge h1
      have hwle : (dh : ℚ) * (cw / ch) ≤ (dw : ℚ) := by
        have h2 : cw / ch * (dh : ℚ) < (dw : ℚ) := (lt_div_iff₀ hdh').mp h1'
        rw [mul_comm]
        exact le_of_lt h2
      refine ⟨by simp [TargetRect, h1], ?_, ?_⟩
      · simp only [TargetRect, h1, if_false, reduceIte]
        exact jsCeil_le_natCast _ dw hwle
      · simp [TargetRect, h1]

/-- C5 witness: cropSize 200 by 100 (aspect 2) with displaySize 50 by 100
(aspect one half): contain picks width 50 and height the ceiling of 25, and
both stay within the display size. -/
theorem containPreservesAspectWitness :
    ((0 : ℚ) < 200 ∧ (200 : ℚ) / 100 ≠ ((50 : ℕ) : ℚ) / ((100 : ℕ) : ℚ)) ∧
    (TargetRect (some "contain") ⟨200, 100⟩ ⟨((50 : ℕ) : ℚ), ((100 : ℕ) : ℚ)⟩ ⟨0, 0⟩).size.width ≤
      ((50 : ℕ) : ℚ) ∧
    (TargetRect (some "contain") ⟨200, 100⟩ ⟨((50 : ℕ) : ℚ), ((100 : ℕ) : ℚ)⟩ ⟨0, 0⟩).size.height ≤
      ((100 : ℕ) : ℚ) := by
  have h := containPreservesAspectWithinCeil 200 100 50 100 (by norm_num) (by norm_num)
    (by norm_num) (by norm_num) (by push_cast; norm_num)
  exact ⟨⟨by norm_num, by push_cast; norm_num⟩, h.2.2.1, h.2.2.2⟩

end ImageEditor
